import Mathlib

/-!
Shallow embedding of the codex-scraper repository (Python sources) in Lean 4,
together with theorems settling the specification claims about it.

Embedded sources:
  src/codex_scraper.py    (namespace CodexScraper)
  src/scrape_urls_v2.py   (namespace ScrapeUrlsV2)
  src/scrape_urls.py      (namespace ScrapeUrlsV1)
  src/get_urls.py         (namespace GetUrls)

Conventions of the embedding:
  - Python dicts with a fixed key set become structures; dicts used as maps
    become association lists (List (String × _)).
  - Python exceptions become Except String / explicit outcome inductives.
  - The file system is a map from file name to file content
    (String → Option String); open(..., "w") + write is an overwriting
    update of that map.
  - Browser-driver calls (Playwright) are external collaborators: their
    possible answers are passed in as explicit parameters (e.g. a page is a
    function from a selector string to the list of matched elements).
  - Python str.strip / "in" / split are re-implemented over List Char so
    that every definition evaluates by kernel reduction.
-/

namespace FsModel

/-- A file system: file name to file content (none = file absent). -/
abbrev FS : Type := String → Option String

/-- Overwriting write of one file, the semantics of open(name, "w") + write. -/
def writeFile (fs : FS) (n c : String) : FS :=
  fun m => if m = n then some c else fs m

/-- Apply a list of writes in order (earlier writes first). -/
def applyWrites (fs : FS) : List (String × String) → FS
  | [] => fs
  | (n, c) :: ws => applyWrites (writeFile fs n c) ws

def oOr (a b : Option String) : Option String :=
  match a with
  | some v => some v
  | none => b

/-- Content assigned to file m by a write list: the last write wins. -/
def lastVal (m : String) : List (String × String) → Option String
  | [] => none
  | (n, c) :: ws => oOr (lastVal m ws) (if m = n then some c else none)

theorem applyWrites_lookup (ws : List (String × String)) :
    ∀ (fs : FS) (m : String), applyWrites fs ws m = oOr (lastVal m ws) (fs m) := by
  induction ws with
  | nil => intro fs m; rfl
  | cons w ws ih =>
    intro fs m
    obtain ⟨n, c⟩ := w
    show applyWrites (writeFile fs n c) ws m = _
    rw [ih]
    cases hl : lastVal m ws with
    | some v => simp [oOr, lastVal, hl]
    | none =>
      by_cases h : m = n
      · subst h; simp [oOr, lastVal, hl, writeFile]
      · simp [oOr, lastVal, hl, writeFile, h]

theorem applyWrites_idem (fs : FS) (ws : List (String × String)) :
    applyWrites (applyWrites fs ws) ws = applyWrites fs ws := by
  funext m
  rw [applyWrites_lookup ws (applyWrites fs ws) m, applyWrites_lookup ws fs m]
  cases lastVal m ws <;> rfl

end FsModel

namespace PyStr

/-- Characters removed by Python str.strip() with no argument. -/
def isSpaceChar (c : Char) : Bool :=
  c == ' ' || c == '\t' || c == '\n' || c == '\r' || c == '\x0b' || c == '\x0c'

/-- Python text.strip(): drop whitespace from both ends. -/
def pyStrip (s : String) : String :=
  String.mk (((s.data.dropWhile isSpaceChar).reverse.dropWhile isSpaceChar).reverse)

/-- Python s.split(sep) restricted to a one-character separator. -/
def splitSlash : List Char → List (List Char)
  | [] => [[]]
  | c :: cs =>
    if c == '/' then [] :: splitSlash cs
    else
      match splitSlash cs with
      | [] => [[c]]
      | seg :: rest => (c :: seg) :: rest

/-- Python url.split('/')[-1]: the final path segment of a locator. -/
def lastSegment (s : String) : String :=
  String.mk ((splitSlash s.data).getLastD [])

/-- Python x in l for a list of strings. -/
def memB (x : String) : List String → Bool
  | [] => false
  | y :: ys => (y == x) || memB x ys

/-- Boolean list-prefix test over characters. -/
def isPrefixB : List Char → List Char → Bool
  | [], _ => true
  | _ :: _, [] => false
  | a :: as, b :: bs => (a == b) && isPrefixB as bs

/-- Python needle in haystack substring test over characters. -/
def containsSub (needle : List Char) : List Char → Bool
  | [] => isPrefixB needle []
  | c :: t => isPrefixB needle (c :: t) || containsSub needle t

/-- Python needle in text.lower(). -/
def lowerContains (needle : String) (hay : String) : Bool :=
  containsSub needle.data (hay.data.map Char.toLower)

end PyStr

namespace JsonStr

/-- JSON string quoting (escaping of inner quotes elided; the records this
program serialises are only ever compared for equality of whole files). -/
def q (s : String) : String := "\"" ++ s ++ "\""

def objJson (inner : String) : String := "\x7b" ++ inner ++ "\x7d"

def optJson {α : Type} (f : α → String) : Option α → String
  | none => "null"
  | some v => f v

def fieldsJson {α : Type} (f : α → String) : List (String × α) → String
  | [] => ""
  | [(k, v)] => q k ++ ": " ++ f v
  | (k, v) :: rest => q k ++ ": " ++ f v ++ ", " ++ fieldsJson f rest

def joinComma : List String → String
  | [] => ""
  | [x] => x
  | x :: rest => x ++ ", " ++ joinComma rest

def listJson (l : List String) : String := "[" ++ joinComma l ++ "]"

end JsonStr

namespace CodexScraper

/-!
Embedding of src/codex_scraper.py (class CodexScraper).
-/

/-- Values stored in the logs dict built by extract_logs:
found_selector and _html are strings, has_content is a bool. -/
inductive LVal
  | s (v : String)
  | b (v : Bool)
deriving DecidableEq

/-- Values stored in the metadata dict: title/github_pr_url/repository/date
are strings; changes is the nested dict of additions/deletions counts. -/
inductive MVal
  | s (v : String)
  | changes (additions deletions : Int)
deriving DecidableEq

/-- The task_data dict assembled by CodexScraper.extract_task_data. -/
structure TaskData where
  url : String
  task_id : String
  prompt : Option (String × String)
  logs : Option (List (String × LVal))
  metadata : List (String × MVal)
  error : Option String
deriving DecidableEq

/-- Python truthiness of an LVal (a non-empty string or True). -/
def lvalTruthy : LVal → Bool
  | .s v => !(v == "")
  | .b v => v

/-- Python str() of an LVal. -/
def lvalRepr : LVal → String
  | .s v => v
  | .b true => "True"
  | .b false => "False"

/-- Python dict.get(k) on an association list. -/
def logsGet (l : List (String × LVal)) (k : String) : Option LVal :=
  (l.find? (fun kv => kv.1 == k)).map Prod.snd

/-- A DOM element as the page capability answers it: its inner_text and
inner_html. -/
structure Elem where
  text : String
  html : String
deriving DecidableEq

/-- The quality filter of extract_logs: len(text.strip()) > 50. -/
def passes (e : Elem) : Bool := 50 < (PyStr.pyStrip e.text).length

/-- The ordered selector list log_selectors of extract_logs. -/
def log_selectors : List String :=
  ["div.react-scroll-to-bottom--css-siqfy-1n7m0yu",
   "[class*=\"react-scroll-to-bottom\"]",
   "pre",
   "code",
   "div[class*=\"overflow-auto\"]"]

/-- The logs_data dict returned when a selector yields a passing element. -/
def mkLogsFound (sel : String) (e : Elem) : List (String × LVal) :=
  [("found_selector", LVal.s sel), ("has_content", LVal.b true),
   ("_html", LVal.s e.html)]

/-- The selector loop of extract_logs: walk the selectors in order; for each,
take the first element whose text passes the quality filter; return the
logs_data recording that selector; otherwise fall through to the next
selector. -/
def findLogsInSelectors (page : String → List Elem) :
    List String → Option (List (String × LVal))
  | [] => none
  | s :: rest =>
    match (page s).find? passes with
    | some e => some (mkLogsFound s e)
    | none => findLogsInSelectors page rest

/-- The main-content fallback of extract_logs: accept the flex-1 container
when its lowercased text mentions ruff, pytest or error. -/
def mainContentFallback (mc : Elem) : Option (List (String × LVal)) :=
  if PyStr.lowerContains "ruff" mc.text || PyStr.lowerContains "pytest" mc.text
      || PyStr.lowerContains "error" mc.text then
    some [("found_selector", LVal.s "main_content_fallback"),
          ("has_content", LVal.b true), ("_html", LVal.s mc.html)]
  else none

/-- CodexScraper.extract_logs: if no Logs tab is found return None;
otherwise run the selector chain, then the main-content fallback. -/
def extract_logs (logsTabFound : Bool) (page : String → List Elem)
    (mainContent : Option Elem) : Option (List (String × LVal)) :=
  if !logsTabFound then none
  else
    match findLogsInSelectors page log_selectors with
    | some d => some d
    | none =>
      match mainContent with
      | some mc => mainContentFallback mc
      | none => none

/-- Python dict assignment d[k] = v on an association list. -/
def setKey (l : List (String × MVal)) (k : String) (v : MVal) :
    List (String × MVal) :=
  if l.any (fun kv => kv.1 == k) then
    l.map (fun kv => if kv.1 == k then (k, v) else kv)
  else l ++ [(k, v)]

/-- Python dict.update(extra). -/
def dictUpdate (base : List (String × MVal)) :
    List (String × MVal) → List (String × MVal)
  | [] => base
  | (k, v) :: rest => dictUpdate (setKey base k v) rest

/-- Where the try block of extract_task_data can raise, in program order:
page.goto, page.wait_for_timeout, page.title. Every later call
(extract_prompt, extract_logs, extract_metadata) swallows its own
exceptions, so once the title is read the try block runs to the end; its
results are the loaded-case parameters. -/
inductive NavPhase
  | gotoFail (e : String)
  | waitFail (e : String)
  | titleFail (e : String)
  | loaded (title : String) (promptR : Option (String × String))
      (logsR : Option (List (String × LVal)))
      (extraMeta : List (String × MVal))

/-- CodexScraper.extract_task_data: initialise task_data with empty fields,
then either record the escaping exception as error, or fill title, prompt,
logs and the updated metadata. -/
def extract_task_data (url : String) (nav : NavPhase) : TaskData :=
  let base : TaskData :=
    { url := url, task_id := PyStr.lastSegment url, prompt := none,
      logs := none, metadata := [], error := none }
  match nav with
  | .gotoFail e => { base with error := some e }
  | .waitFail e => { base with error := some e }
  | .titleFail e => { base with error := some e }
  | .loaded t p l m =>
    { base with
      metadata := dictUpdate [("title", MVal.s t)] m,
      prompt := p, logs := l }

/-- Rendering of an LVal as JSON (models json.dump). -/
def lvalJson : LVal → String
  | .s v => JsonStr.q v
  | .b true => "true"
  | .b false => "false"

/-- Rendering of an MVal as JSON (models json.dump). -/
def mvalJson : MVal → String
  | .s v => JsonStr.q v
  | .changes a d =>
    JsonStr.objJson (JsonStr.q "additions" ++ ": " ++ toString a ++ ", " ++
      JsonStr.q "deletions" ++ ": " ++ toString d)

/-- Rendering of the prompt dict as JSON. -/
def promptJson (p : String × String) : String :=
  JsonStr.objJson (JsonStr.q "text" ++ ": " ++ JsonStr.q p.1 ++ ", " ++
    JsonStr.q "html" ++ ": " ++ JsonStr.q p.2)

/-- Deterministic rendering of task_data as JSON, the content json.dump
writes to the per-task file. -/
def taskDataJson (td : TaskData) : String :=
  JsonStr.objJson (JsonStr.q "url" ++ ": " ++ JsonStr.q td.url ++ ", " ++
    JsonStr.q "task_id" ++ ": " ++ JsonStr.q td.task_id ++ ", " ++
    JsonStr.q "prompt" ++ ": " ++ JsonStr.optJson promptJson td.prompt ++ ", " ++
    JsonStr.q "logs" ++ ": " ++
      JsonStr.optJson (fun l => JsonStr.objJson (JsonStr.fieldsJson lvalJson l)) td.logs ++ ", " ++
    JsonStr.q "metadata" ++ ": " ++
      JsonStr.objJson (JsonStr.fieldsJson mvalJson td.metadata) ++ ", " ++
    JsonStr.q "error" ++ ": " ++ JsonStr.optJson JsonStr.q td.error)

/-- CodexScraper._create_styled_html: the fixed self-contained report
template around the logs markup (CSS block abbreviated to a marker; it is a
constant string in the source). -/
def createStyledHtml (logsHtml taskId : String) : String :=
  "<!DOCTYPE html><html lang=\"en\"><head><meta charset=\"UTF-8\"><title>Logs - "
    ++ taskId ++ "</title><style>/* ansi + layout css */</style></head><body>"
    ++ "<div class=\"header\"><h1>Codex Task Logs</h1><p>Task ID: " ++ taskId
    ++ "</p></div><div class=\"logs-content\">" ++ logsHtml
    ++ "</div></body></html>"

/-- CodexScraper.save_task_data: pop the truthy _html value out of the logs
dict (a mutation of the record), write the JSON file, and, when markup was
popped, write the companion _logs.html file. Returns the (possibly mutated)
record, the new file system, and the names written by this call. -/
def save_task_data (fs : FsModel.FS) (td : TaskData) :
    TaskData × FsModel.FS × List String :=
  let popRes : Option LVal × TaskData :=
    match td.logs with
    | none => (none, td)
    | some l =>
      if l.isEmpty then (none, td)
      else
        match logsGet l "_html" with
        | none => (none, td)
        | some v =>
          if lvalTruthy v then
            (some v,
             { td with logs := some (l.filter (fun kv => !(kv.1 == "_html"))) })
          else (none, td)
  let td1 := popRes.2
  let jsonName := td.task_id ++ ".json"
  let fs1 := FsModel.writeFile fs jsonName (taskDataJson td1)
  match popRes.1 with
  | some v =>
    (td1,
     FsModel.writeFile fs1 (td.task_id ++ "_logs.html")
       (createStyledHtml (lvalRepr v) td.task_id),
     [jsonName, td.task_id ++ "_logs.html"])
  | none => (td1, fs1, [jsonName])

end CodexScraper

namespace ScrapeUrlsV2

/-!
Embedding of src/scrape_urls_v2.py (class CodexTaskScraper).
-/

/-- The per-task result dict of CodexTaskScraper.extract_task_data. The
success return carries every field; the error return carries only url,
task_id, error and scraped_at, so key absence is modelled by none / []. -/
structure RecordV2 where
  url : String
  task_id : String
  title : Option String
  prompt : Option String
  metadata : List (String × String)
  summary_data : List (String × String)
  files_changed : List String
  pr_links : List String
  logs : Option (String × String)
  error : Option String
  scraped_at : String
deriving DecidableEq

/-- The error-shape dict returned by the except branches: url, task_id,
error and scraped_at only. -/
def failedRecordV2 (url e now : String) : RecordV2 :=
  { url := url, task_id := PyStr.lastSegment url, title := none,
    prompt := none, metadata := [], summary_data := [], files_changed := [],
    pr_links := [], logs := none, error := some e, scraped_at := now }

/-- Where the outer try block of extract_task_data can raise before any
field is assembled: the load-state waits / wait_for_timeout, then
page.title. All later extraction blocks catch their own exceptions, so
their results are the loaded-case parameters of the success path. -/
inductive LoadPhase
  | loadFail (e : String)
  | titleFail (e : String)
  | loaded (title : String)

/-- CodexTaskScraper.extract_task_data (v2): either the escaping exception
produces the error-shape dict, or the full success dict is assembled from
the per-field extraction results. -/
def extract_task_data (url now : String) (load : LoadPhase)
    (promptR : String) (metaR : List (String × String))
    (logsR : Option (String × String)) (summaryR : List (String × String))
    (filesR : List String) (linksR : List String) : RecordV2 :=
  match load with
  | .loadFail e => failedRecordV2 url e now
  | .titleFail e => failedRecordV2 url e now
  | .loaded t =>
    { url := url, task_id := PyStr.lastSegment url, title := some t,
      prompt := some promptR, metadata := metaR, summary_data := summaryR,
      files_changed := filesR, pr_links := linksR, logs := logsR,
      error := none, scraped_at := now }

/-- The navigation retry loop of scrape_task:
for retry in range(max_retries): try goto; break
except: if retry < max_retries - 1: sleep(3) else raise.
Arguments: the goto outcome per attempt index, the remaining loop
iterations, the next attempt index, the sleeps performed so far.
Returns the outcome together with the list of sleeps (in seconds). -/
def navRetry (goto : Nat → Except String Unit) :
    Nat → Nat → List Nat → Except String Unit × List Nat
  | 0, _, sleeps => (Except.ok (), sleeps)
  | rem + 1, attempt, sleeps =>
    match goto attempt with
    | Except.ok _ => (Except.ok (), sleeps)
    | Except.error e =>
      if rem == 0 then (Except.error e, sleeps)
      else navRetry goto rem (attempt + 1) (sleeps ++ [3])

/-- Observable outcome of one scrape_task call: the returned record, the
retry sleeps performed, and whether a page was opened / closed. -/
structure TaskRun where
  record : RecordV2
  sleeps : List Nat
  pageOpened : Bool
  pageClosed : Bool
deriving DecidableEq

/-- CodexTaskScraper.scrape_task (v2): page = None; open a page in the
shared context (an exception leaves page = None); navigate with the retry
loop (exhaustion re-raises the last error, caught by the except branch
which builds the error record); otherwise extract_task_data, which never
raises, gives the result; the finally block closes the page whenever one
was opened. -/
def scrape_task (newPage : Except String Unit)
    (goto : Nat → Except String Unit) (extractRes : RecordV2)
    (url now : String) : TaskRun :=
  match newPage with
  | Except.error e =>
    { record := failedRecordV2 url e now, sleeps := [],
      pageOpened := false, pageClosed := false }
  | Except.ok _ =>
    match navRetry goto 3 0 [] with
    | (Except.error e, ss) =>
      { record := failedRecordV2 url e now, sleeps := ss,
        pageOpened := true, pageClosed := true }
    | (Except.ok _, ss) =>
      { record := extractRes, sleeps := ss,
        pageOpened := true, pageClosed := true }

/-- CodexTaskScraper.scrape_all_tasks (v2): if browser.contexts is empty,
log an error and return [] at once; otherwise process every URL
sequentially in the first context. Returns the records and the list of
Targets actually processed. -/
def scrape_all_tasks {Ctx : Type} (contexts : List Ctx)
    (scrapeF : Ctx → String → RecordV2) (urls : List String) :
    List RecordV2 × List String :=
  match contexts with
  | [] => ([], [])
  | c :: _ => (urls.map (scrapeF c), urls)

/-- The acceptance test of the files_changed loop:
if text and '.' in text and len(text) < 200. -/
def filePass (t : String) : Bool :=
  !(t == "") && t.data.contains '.' && t.length < 200

/-- One iteration of the files_changed loop: accept the candidate, strip
it, and append it unless already collected. -/
def fileStep (acc : List String) (t : String) : List String :=
  if filePass t then
    let cleaned := PyStr.pyStrip t
    if PyStr.memB cleaned acc then acc else acc ++ [cleaned]
  else acc

/-- The files_changed accumulation of extract_task_data (v2) over the
stream of candidate texts produced by the file patterns. -/
def collectFiles (cands : List String) : List String :=
  cands.foldl fileStep []

/-- Python html.escape of one character. -/
def escChar (c : Char) : List Char :=
  if c == '&' then "&amp;".data
  else if c == '<' then "&lt;".data
  else if c == '>' then "&gt;".data
  else if c == '"' then "&quot;".data
  else if c == Char.ofNat 39 then "&#x27;".data
  else [c]

/-- Python html.escape. -/
def htmlEscape (s : String) : String :=
  String.mk (s.data.foldr (fun c acc => escChar c ++ acc) [])

/-- Deterministic rendering of a RecordV2 as JSON (models json.dump of the
result dict). -/
def jsonOfRecordV2 (r : RecordV2) : String :=
  JsonStr.objJson (JsonStr.q "url" ++ ": " ++ JsonStr.q r.url ++ ", " ++
    JsonStr.q "task_id" ++ ": " ++ JsonStr.q r.task_id ++ ", " ++
    JsonStr.q "title" ++ ": " ++ JsonStr.optJson JsonStr.q r.title ++ ", " ++
    JsonStr.q "prompt" ++ ": " ++ JsonStr.optJson JsonStr.q r.prompt ++ ", " ++
    JsonStr.q "metadata" ++ ": " ++
      JsonStr.objJson (JsonStr.fieldsJson JsonStr.q r.metadata) ++ ", " ++
    JsonStr.q "summary_data" ++ ": " ++
      JsonStr.objJson (JsonStr.fieldsJson JsonStr.q r.summary_data) ++ ", " ++
    JsonStr.q "files_changed" ++ ": " ++
      JsonStr.listJson (r.files_changed.map JsonStr.q) ++ ", " ++
    JsonStr.q "pr_links" ++ ": " ++
      JsonStr.listJson (r.pr_links.map JsonStr.q) ++ ", " ++
    JsonStr.q "logs" ++ ": " ++
      JsonStr.optJson (fun hl => JsonStr.objJson (JsonStr.q "html" ++ ": " ++
        JsonStr.q hl.1 ++ ", " ++ JsonStr.q "text" ++ ": " ++ JsonStr.q hl.2)) r.logs
      ++ ", " ++
    JsonStr.q "error" ++ ": " ++ JsonStr.optJson JsonStr.q r.error ++ ", " ++
    JsonStr.q "scraped_at" ++ ": " ++ JsonStr.q r.scraped_at)

/-- Python truthiness of the prompt field of the result dict. -/
def promptTruthy (r : RecordV2) : Bool :=
  match r.prompt with
  | some p => !(p == "")
  | none => false

/-- Python truthiness of the logs field of the result dict (the empty dict is falsy and is
modelled as none). -/
def logsTruthy (r : RecordV2) : Bool := r.logs.isSome

/-- Truthiness of the html entry of the logs dict: logs markup is
present and non-empty. -/
def logsHtmlNonempty (r : RecordV2) : Bool :=
  match r.logs with
  | some hl => !(hl.1 == "")
  | none => false

/-- One per-task status line of the summary dict. -/
def taskLine (r : RecordV2) : String :=
  JsonStr.objJson (JsonStr.q "task_id" ++ ": " ++ JsonStr.q r.task_id ++ ", " ++
    JsonStr.q "title" ++ ": " ++ JsonStr.optJson JsonStr.q r.title ++ ", " ++
    JsonStr.q "url" ++ ": " ++ JsonStr.q r.url ++ ", " ++
    JsonStr.q "status" ++ ": " ++
      JsonStr.q (if r.error.isSome then "error" else "success") ++ ", " ++
    JsonStr.q "has_prompt" ++ ": " ++
      (if promptTruthy r then "true" else "false") ++ ", " ++
    JsonStr.q "has_logs" ++ ": " ++
      (if logsTruthy r then "true" else "false") ++ ", " ++
    JsonStr.q "error" ++ ": " ++ JsonStr.q (r.error.getD ""))

/-- Content of summary.json: the aggregate counts recomputed from the full
result list plus one line per record. -/
def summaryJson (rs : List RecordV2) : String :=
  JsonStr.objJson (JsonStr.q "total_tasks" ++ ": " ++ toString rs.length ++ ", " ++
    JsonStr.q "successful" ++ ": " ++
      toString (rs.countP (fun r => r.error.isNone)) ++ ", " ++
    JsonStr.q "failed" ++ ": " ++
      toString (rs.countP (fun r => r.error.isSome)) ++ ", " ++
    JsonStr.q "with_prompt" ++ ": " ++ toString (rs.countP promptTruthy) ++ ", " ++
    JsonStr.q "with_logs" ++ ": " ++ toString (rs.countP logsTruthy) ++ ", " ++
    JsonStr.q "tasks" ++ ": " ++ JsonStr.listJson (rs.map taskLine))

/-- CodexTaskScraper.save_logs_as_html (v2): a fixed self-contained
template embedding the title, the escaped prompt and the logs markup (the
constant CSS block abbreviated to a marker). -/
def logsReportHtml (r : RecordV2) : String :=
  let title := r.title.getD "Codex Task"
  let prompt := htmlEscape (r.prompt.getD "")
  let logsHtml := match r.logs with | some hl => hl.1 | none => ""
  "<!DOCTYPE html><html><head><meta charset=\"utf-8\"><title>" ++ title
    ++ " - Logs</title><style>/* layout css */</style></head><body>"
    ++ "<div class=\"container\"><h1>" ++ title ++ "</h1>"
    ++ "<div class=\"metadata\">Task ID: " ++ r.task_id ++ "<br>URL: <a href=\""
    ++ r.url ++ "\">" ++ r.url ++ "</a><br>Scraped: " ++ r.scraped_at
    ++ "</div><h2>Prompt</h2><div class=\"prompt\">"
    ++ (if prompt == "" then "No prompt found" else prompt)
    ++ "</div><h2>Logs</h2><div class=\"logs\">"
    ++ (if logsHtml == "" then "No logs found" else logsHtml)
    ++ "</div></div></body></html>"

/-- The task id used for the file names: an unknown id is replaced by a
hash of the url (hashF models the per-process Python hash function). -/
def effTaskId (hashF : String → String) (r : RecordV2) : String :=
  if r.task_id == "unknown" then "task_" ++ hashF r.url else r.task_id

/-- The files written for one record: its JSON file, then, only when the
logs markup is non-empty, its companion _logs.html report. -/
def recordWrites (hashF : String → String) (r : RecordV2) :
    List (String × String) :=
  let tid := effTaskId hashF r
  (tid ++ ".json", jsonOfRecordV2 r) ::
    (if logsHtmlNonempty r then [(tid ++ "_logs.html", logsReportHtml r)]
     else [])

/-- CodexTaskScraper.save_results (v2): write every record file in list
order, then overwrite summary.json with the recomputed summary. -/
def save_results (hashF : String → String) (fs : FsModel.FS)
    (results : List RecordV2) : FsModel.FS :=
  FsModel.applyWrites fs
    ((results.flatMap (recordWrites hashF)) ++
      [("summary.json", summaryJson results)])

end ScrapeUrlsV2

namespace ScrapeUrlsV1

/-!
Embedding of src/scrape_urls.py (class CodexTaskScraper, the batched
orchestrator scrape_all_tasks).
-/

/-- Observable events of the orchestrator loop: one completed Task result,
or the inter-batch sleep. -/
inductive BatchEv (α : Type)
  | result (r : α)
  | sleepBatch
deriving DecidableEq

def recOf {α : Type} : BatchEv α → Option α
  | .result r => some r
  | .sleepBatch => none

def isSleep {α : Type} : BatchEv α → Bool
  | .result _ => false
  | .sleepBatch => true

/-- The batch loop of scrape_all_tasks: for i in range(0, len(urls), n):
gather the batch urls[i : i+n], extend the results, and sleep one
inter-batch delay only when i + n < len(urls). scrape is the per-Target
Task Executor, which never raises (scrape_task converts every exception
into an error record). The fuel argument bounds the recursion and is
instantiated with the list length. -/
def scrapeBatchesAux {α : Type} (scrape : String → α) (n : Nat) :
    Nat → List String → List (BatchEv α)
  | 0, _ => []
  | _, [] => []
  | fuel + 1, u :: rest0 =>
    ((u :: rest0).take n).map (fun v => BatchEv.result (scrape v)) ++
      (if ((u :: rest0).drop n).isEmpty then []
       else BatchEv.sleepBatch ::
         scrapeBatchesAux scrape n fuel ((u :: rest0).drop n))

/-- CodexTaskScraper.scrape_all_tasks (v1) as its event trace. -/
def scrape_all_tasks {α : Type} (scrape : String → α) (n : Nat)
    (urls : List String) : List (BatchEv α) :=
  scrapeBatchesAux scrape n urls.length urls

/-- The consecutive batches urls[i : i+n] the loop iterates over. -/
def chunksAux {α : Type} (n : Nat) : Nat → List α → List (List α)
  | 0, _ => []
  | _, [] => []
  | fuel + 1, x :: xs => ((x :: xs).take n) :: chunksAux n fuel ((x :: xs).drop n)

def chunks {α : Type} (n : Nat) (l : List α) : List (List α) :=
  chunksAux n l.length l

end ScrapeUrlsV1

namespace GetUrls

/-!
Embedding of src/get_urls.py (extract_codex_urls, the regex validation
step).
-/

/-- The character class [a-fA-F0-9]. -/
def isHexDigit (c : Char) : Bool :=
  (('0' ≤ c) && (c ≤ '9')) || (('a' ≤ c) && (c ≤ 'f')) ||
    (('A' ≤ c) && (c ≤ 'F'))

/-- The literal part of the compiled pattern
https://chatgpt\.com/codex/tasks/task_e_ . -/
def taskUrlLit : List Char := "https://chatgpt.com/codex/tasks/task_e_".data

/-- Matching of the pattern LITERAL[a-fA-F0-9]+ under re.match semantics:
the literal must match at the start of the string and at least one hex
digit must follow; anything after that is not inspected (re.match anchors
only at the start). -/
def litThenHexMatch : List Char → List Char → Bool
  | [], s =>
    match s with
    | c :: _ => isHexDigit c
    | [] => false
  | _ :: _, [] => false
  | l :: ls, c :: cs => (l == c) && litThenHexMatch ls cs

/-- pattern.match(url) of extract_codex_urls. -/
def pyMatchTaskUrl (s : String) : Bool := litThenHexMatch taskUrlLit s.data

/-- The validation step: [url for url in urls if pattern.match(url)]. -/
def valid_urls (urls : List String) : List String :=
  urls.filter pyMatchTaskUrl

end GetUrls

namespace SpecSide

/-!
Definitions that follow the words of the spec rather than the source, used
only to state refinement claims against the embedded code.
-/

/-- First-occurrence deduplication: keep each string the first time it
appears, drop all later repetitions. -/
def firstDedup : List String → List String
  | [] => []
  | x :: xs => x :: firstDedup (xs.filter (fun y => !(y == x)))
termination_by l => l.length
decreasing_by
  simp only [List.length_cons]
  exact Nat.lt_succ_of_le (List.length_filter_le _ _)

/-- The full URL pattern of the spec: the whole string is the fixed prefix
followed by a non-empty hexadecimal identifier and nothing else. -/
def specFullMatch (s : String) : Bool :=
  let cs := s.data
  let pre := GetUrls.taskUrlLit
  (decide (cs.take pre.length = pre)) &&
    (!(cs.drop pre.length).isEmpty) && (cs.drop pre.length).all GetUrls.isHexDigit

end SpecSide

section Theorems

/-- C5: for every invocation of the per-Target task executor scrape_task,
the page resource acquired for that Target is released on every exit path,
whether the task ends in success or in failure: the finally block closes
the page exactly when one was opened. -/
theorem C5_page_released_on_every_exit (newPage : Except String Unit)
    (goto : Nat → Except String Unit) (extractRes : ScrapeUrlsV2.RecordV2)
    (url now : String) :
    (ScrapeUrlsV2.scrape_task newPage goto extractRes url now).pageClosed =
      (ScrapeUrlsV2.scrape_task newPage goto extractRes url now).pageOpened := by
  unfold ScrapeUrlsV2.scrape_task
  cases newPage with
  | error e => rfl
  | ok u =>
    cases hnav : ScrapeUrlsV2.navRetry goto 3 0 [] with
    | mk r ss => cases r <;> rfl

/-- C6: when no shared browsing context is available, scrape_all_tasks
returns immediately with no Records produced and no Target processed. -/
theorem C6_no_context_fails_run (Ctx : Type)
    (scrapeF : Ctx → String → ScrapeUrlsV2.RecordV2) (urls : List String) :
    ScrapeUrlsV2.scrape_all_tasks ([] : List Ctx) scrapeF urls = ([], []) := rfl

/-- C8: save_results is idempotent: re-running it on the same result list
over the file system it produced changes nothing, because every file is
written by an overwriting write whose content is a pure function of the
records (last write wins, byte-identical output). -/
theorem C8_save_results_idempotent (hashF : String → String)
    (fs : FsModel.FS) (results : List ScrapeUrlsV2.RecordV2) :
    ScrapeUrlsV2.save_results hashF
        (ScrapeUrlsV2.save_results hashF fs results) results =
      ScrapeUrlsV2.save_results hashF fs results := by
  unfold ScrapeUrlsV2.save_results
  exact FsModel.applyWrites_idem fs _

/-- C2: a Record whose extraction failed carries no extracted field data:
in codex_scraper the prompt and logs are None and the metadata dict is
empty, and in scrape_urls_v2 the error-shape dict holds only the url, the
derived task id, the error text and the timestamp. -/
theorem C2_failed_record_no_field_data :
    (∀ (url : String) (nav : CodexScraper.NavPhase),
      (CodexScraper.extract_task_data url nav).error ≠ none →
      (CodexScraper.extract_task_data url nav).prompt = none ∧
      (CodexScraper.extract_task_data url nav).logs = none ∧
      (CodexScraper.extract_task_data url nav).metadata = [] ∧
      (CodexScraper.extract_task_data url nav).url = url ∧
      (CodexScraper.extract_task_data url nav).task_id = PyStr.lastSegment url) ∧
    (∀ (url now : String) (load : ScrapeUrlsV2.LoadPhase) (pR : String)
      (mR : List (String × String)) (lR : Option (String × String))
      (sR : List (String × String)) (fR kR : List String),
      (ScrapeUrlsV2.extract_task_data url now load pR mR lR sR fR kR).error ≠ none →
      ∃ e, ScrapeUrlsV2.extract_task_data url now load pR mR lR sR fR kR =
        ScrapeUrlsV2.failedRecordV2 url e now) := by
  constructor
  · intro url nav herr
    cases nav with
    | gotoFail e => exact ⟨rfl, rfl, rfl, rfl, rfl⟩
    | waitFail e => exact ⟨rfl, rfl, rfl, rfl, rfl⟩
    | titleFail e => exact ⟨rfl, rfl, rfl, rfl, rfl⟩
    | loaded t p l m => exact absurd rfl herr
  · intro url now load pR mR lR sR fR kR herr
    cases load with
    | loadFail e => exact ⟨e, rfl⟩
    | titleFail e => exact ⟨e, rfl⟩
    | loaded t => exact absurd rfl herr

/-- C2 witness: a concrete failed navigation yields the empty-field record
in both embeddings. -/
theorem C2_witness :
    (CodexScraper.extract_task_data "https://chatgpt.com/codex/tasks/task_e_9"
        (CodexScraper.NavPhase.gotoFail "net::ERR_TIMED_OUT")).logs = none ∧
    (∃ e, ScrapeUrlsV2.extract_task_data "https://chatgpt.com/codex/tasks/task_e_9"
        "2025-06-01T00:00:00" (ScrapeUrlsV2.LoadPhase.loadFail "Timeout 30000ms")
        "" [] none [] [] [] =
      ScrapeUrlsV2.failedRecordV2 "https://chatgpt.com/codex/tasks/task_e_9" e
        "2025-06-01T00:00:00") :=
  ⟨(C2_failed_record_no_field_data.1 _ _
      (fun hc => Option.noConfusion hc)).2.1,
   C2_failed_record_no_field_data.2 _ _ _ _ _ _ _ _ _
      (fun hc => Option.noConfusion hc)⟩

/-- C1: the selector chain of extract_logs returns the result of the first
strategy (in declared order) whose candidate passes the quality filter,
skipping every earlier strategy with no passing candidate, and records
that strategy identifier as found_selector in the returned logs data. -/
theorem C1_resolve_first_passing_strategy
    (page : String → List CodexScraper.Elem) (ss1 : List String)
    (s : String) (ss2 : List String) (e : CodexScraper.Elem)
    (hskip : ∀ t ∈ ss1, (page t).find? CodexScraper.passes = none)
    (hfound : (page s).find? CodexScraper.passes = some e) :
    CodexScraper.findLogsInSelectors page (ss1 ++ s :: ss2) =
      some (CodexScraper.mkLogsFound s e) := by
  induction ss1 with
  | nil => simp [CodexScraper.findLogsInSelectors, hfound]
  | cons a as ih =>
    have ha := hskip a (by simp)
    simp only [List.cons_append, CodexScraper.findLogsInSelectors, ha]
    exact ih (fun t ht => hskip t (by simp [ht]))

/-- C1 witness: with two strategies where only the second has a passing
candidate, the chain returns the value and identifier of the second strategy. -/
theorem C1_witness :
    (∀ t ∈ ["div[class*=\"scroll\"]"],
      ((fun t => if t = "pre"
          then [(⟨"xxxxxxxxxxxxxxxxxxxxxxxxxxxxxxxxxxxxxxxxxxxxxxxxxxxxxxxxxxxx",
                  "<pre>build output</pre>"⟩ : CodexScraper.Elem)]
          else [⟨"menu", "<div>menu</div>"⟩]) t).find? CodexScraper.passes = none) ∧
    CodexScraper.findLogsInSelectors
      (fun t => if t = "pre"
        then [(⟨"xxxxxxxxxxxxxxxxxxxxxxxxxxxxxxxxxxxxxxxxxxxxxxxxxxxxxxxxxxxx",
                "<pre>build output</pre>"⟩ : CodexScraper.Elem)]
        else [⟨"menu", "<div>menu</div>"⟩])
      ["div[class*=\"scroll\"]", "pre"] =
      some (CodexScraper.mkLogsFound "pre"
        ⟨"xxxxxxxxxxxxxxxxxxxxxxxxxxxxxxxxxxxxxxxxxxxxxxxxxxxxxxxxxxxx",
         "<pre>build output</pre>"⟩) :=
  ⟨by decide,
   C1_resolve_first_passing_strategy _ ["div[class*=\"scroll\"]"] "pre" [] _
     (by decide) (by decide)⟩

/-- C3 counterexample: the claim says the backoff between navigation
attempts is 2s then 3s; on a Target whose first two attempts fail and
third succeeds the code sleeps 3s then 3s, not 2s then 3s. -/
theorem C3_counterexample :
    (ScrapeUrlsV2.scrape_task (Except.ok ())
        (fun n => if n < 2 then Except.error "net::ERR_TIMED_OUT" else Except.ok ())
        (ScrapeUrlsV2.failedRecordV2 "https://chatgpt.com/codex/tasks/task_e_9" "" "t")
        "https://chatgpt.com/codex/tasks/task_e_9" "t").sleeps = [3, 3] ∧
    ([3, 3] : List Nat) ≠ [2, 3] := by
  constructor
  · rfl
  · decide

/-- C3 (amended): scrape_task retries navigation up to 3 attempts with a
constant 3-second backoff between attempts: first-two-fail-then-success
extracts normally after sleeping 3s twice, and three failures yield the
Failed record carrying the last error after the same two sleeps. -/
theorem C3_retry_budget_and_backoff
    (g1 g2 : Nat → Except String Unit) (e0 e1 f0 f1 f2 : String)
    (extractRes : ScrapeUrlsV2.RecordV2) (url now : String)
    (h10 : g1 0 = Except.error e0) (h11 : g1 1 = Except.error e1)
    (h12 : g1 2 = Except.ok ())
    (h20 : g2 0 = Except.error f0) (h21 : g2 1 = Except.error f1)
    (h22 : g2 2 = Except.error f2) :
    ScrapeUrlsV2.scrape_task (Except.ok ()) g1 extractRes url now =
      { record := extractRes, sleeps := [3, 3],
        pageOpened := true, pageClosed := true } ∧
    ScrapeUrlsV2.scrape_task (Except.ok ()) g2 extractRes url now =
      { record := ScrapeUrlsV2.failedRecordV2 url f2 now, sleeps := [3, 3],
        pageOpened := true, pageClosed := true } := by
  constructor
  · simp [ScrapeUrlsV2.scrape_task, ScrapeUrlsV2.navRetry, h10, h11, h12]
  · simp [ScrapeUrlsV2.scrape_task, ScrapeUrlsV2.navRetry, h20, h21, h22]

/-- C3 witness: the amended retry behaviour at concrete goto outcomes. -/
theorem C3_witness :
    ScrapeUrlsV2.scrape_task (Except.ok ())
        (fun n => if n < 2 then Except.error "nav fail" else Except.ok ())
        (ScrapeUrlsV2.failedRecordV2 "https://h/task_e_2" "" "t1")
        "https://h/task_e_2" "t1" =
      { record := ScrapeUrlsV2.failedRecordV2 "https://h/task_e_2" "" "t1",
        sleeps := [3, 3], pageOpened := true, pageClosed := true } ∧
    ScrapeUrlsV2.scrape_task (Except.ok ()) (fun _ => Except.error "nav down")
        (ScrapeUrlsV2.failedRecordV2 "https://h/task_e_2" "" "t1")
        "https://h/task_e_2" "t1" =
      { record := ScrapeUrlsV2.failedRecordV2 "https://h/task_e_2" "nav down" "t1",
        sleeps := [3, 3], pageOpened := true, pageClosed := true } :=
  C3_retry_budget_and_backoff _ _ "nav fail" "nav fail" "nav down" "nav down"
    "nav down" _ _ _ rfl rfl rfl rfl rfl rfl

theorem find?_filter_not_none {α : Type} (p : α → Bool) (l : List α) :
    (l.filter (fun a => !(p a))).find? p = none := by
  induction l with
  | nil => rfl
  | cons a t ih =>
    by_cases hp : p a
    · simp [List.filter_cons, hp, ih]
    · simp [List.filter_cons, List.find?_cons, hp, ih]

/-- C10: save_task_data pops the _html key out of the logs dict before
serialising, so the per-Target JSON is written from a record whose logs
mapping has no _html entry; the pop mutates the record, hence a second
call on the returned record writes the same JSON bytes but no companion
_logs.html file. -/
theorem C10_save_task_data_pops_html (fs : FsModel.FS)
    (td : CodexScraper.TaskData) (l : List (String × CodexScraper.LVal))
    (h : String) (hl : td.logs = some l)
    (hh : CodexScraper.logsGet l "_html" = some (CodexScraper.LVal.s h))
    (hne : h ≠ "") :
    (CodexScraper.save_task_data fs td).1.logs =
      some (l.filter (fun kv => !(kv.1 == "_html"))) ∧
    CodexScraper.logsGet (l.filter (fun kv => !(kv.1 == "_html"))) "_html" =
      none ∧
    (CodexScraper.save_task_data fs td).2.1 (td.task_id ++ ".json") =
      some (CodexScraper.taskDataJson (CodexScraper.save_task_data fs td).1) ∧
    (CodexScraper.save_task_data fs td).2.2 =
      [td.task_id ++ ".json", td.task_id ++ "_logs.html"] ∧
    (CodexScraper.save_task_data (CodexScraper.save_task_data fs td).2.1
        (CodexScraper.save_task_data fs td).1).1 =
      (CodexScraper.save_task_data fs td).1 ∧
    (CodexScraper.save_task_data (CodexScraper.save_task_data fs td).2.1
        (CodexScraper.save_task_data fs td).1).2.1 (td.task_id ++ ".json") =
      (CodexScraper.save_task_data fs td).2.1 (td.task_id ++ ".json") ∧
    (CodexScraper.save_task_data (CodexScraper.save_task_data fs td).2.1
        (CodexScraper.save_task_data fs td).1).2.2 =
      [td.task_id ++ ".json"] := by
  have hle : l.isEmpty = false := by
    cases l with
    | nil => simp [CodexScraper.logsGet] at hh
    | cons a t => rfl
  have htv : CodexScraper.lvalTruthy (CodexScraper.LVal.s h) = true := by
    simp [CodexScraper.lvalTruthy, hne]
  have hfilter : CodexScraper.logsGet
      (l.filter (fun kv => !(kv.1 == "_html"))) "_html" = none := by
    unfold CodexScraper.logsGet
    rw [find?_filter_not_none]
    rfl
  have hnames : td.task_id ++ ".json" ≠ td.task_id ++ "_logs.html" := by
    intro hcontra
    have h2 := congrArg String.length hcontra
    have h3 : (".json" : String).length = 5 := rfl
    have h4 : ("_logs.html" : String).length = 10 := rfl
    rw [String.length_append, String.length_append, h3, h4] at h2
    omega
  have heq1 : CodexScraper.save_task_data fs td =
      ({ td with logs := some (l.filter (fun kv => !(kv.1 == "_html"))) },
       FsModel.writeFile
         (FsModel.writeFile fs (td.task_id ++ ".json")
           (CodexScraper.taskDataJson
             { td with logs := some (l.filter (fun kv => !(kv.1 == "_html"))) }))
         (td.task_id ++ "_logs.html")
         (CodexScraper.createStyledHtml h td.task_id),
       [td.task_id ++ ".json", td.task_id ++ "_logs.html"]) := by
    simp [CodexScraper.save_task_data, hl, hle, hh, htv, CodexScraper.lvalRepr]
  have heq2 : ∀ (fsx : FsModel.FS),
      CodexScraper.save_task_data fsx
          { td with logs := some (l.filter (fun kv => !(kv.1 == "_html"))) } =
        ({ td with logs := some (l.filter (fun kv => !(kv.1 == "_html"))) },
         FsModel.writeFile fsx (td.task_id ++ ".json")
           (CodexScraper.taskDataJson
             { td with logs := some (l.filter (fun kv => !(kv.1 == "_html"))) }),
         [td.task_id ++ ".json"]) := by
    intro fsx
    by_cases hc : (l.filter (fun kv => !(kv.1 == "_html"))).isEmpty
    · simp [CodexScraper.save_task_data, hc]
    · simp [CodexScraper.save_task_data, hc, hfilter]
  rw [heq1]
  refine ⟨rfl, hfilter, ?_, rfl, ?_, ?_, ?_⟩
  · simp [FsModel.writeFile, hnames]
  · rw [heq2]
  · rw [heq2]
    simp [FsModel.writeFile, hnames]
  · rw [heq2]

/-- C10 witness: a concrete record whose logs carry markup. -/
theorem C10_witness :
    (CodexScraper.save_task_data (fun _ => none)
        { url := "https://chatgpt.com/codex/tasks/task_e_9",
          task_id := "task_e_9",
          prompt := some ("fix bug", "<div>fix bug</div>"),
          logs := some [("found_selector", CodexScraper.LVal.s "pre"),
                        ("has_content", CodexScraper.LVal.b true),
                        ("_html", CodexScraper.LVal.s "<pre>out</pre>")],
          metadata := [("title", CodexScraper.MVal.s "T")],
          error := none }).2.2 = ["task_e_9.json", "task_e_9_logs.html"] ∧
    (CodexScraper.save_task_data
        (CodexScraper.save_task_data (fun _ => none)
          { url := "https://chatgpt.com/codex/tasks/task_e_9",
            task_id := "task_e_9",
            prompt := some ("fix bug", "<div>fix bug</div>"),
            logs := some [("found_selector", CodexScraper.LVal.s "pre"),
                          ("has_content", CodexScraper.LVal.b true),
                          ("_html", CodexScraper.LVal.s "<pre>out</pre>")],
            metadata := [("title", CodexScraper.MVal.s "T")],
            error := none }).2.1
        (CodexScraper.save_task_data (fun _ => none)
          { url := "https://chatgpt.com/codex/tasks/task_e_9",
            task_id := "task_e_9",
            prompt := some ("fix bug", "<div>fix bug</div>"),
            logs := some [("found_selector", CodexScraper.LVal.s "pre"),
                          ("has_content", CodexScraper.LVal.b true),
                          ("_html", CodexScraper.LVal.s "<pre>out</pre>")],
            metadata := [("title", CodexScraper.MVal.s "T")],
            error := none }).1).2.2 = ["task_e_9.json"] := by
  obtain ⟨h1, h2, h3, h4, h5, h6, h7⟩ :=
    C10_save_task_data_pops_html (fun _ => none)
      { url := "https://chatgpt.com/codex/tasks/task_e_9",
        task_id := "task_e_9",
        prompt := some ("fix bug", "<div>fix bug</div>"),
        logs := some [("found_selector", CodexScraper.LVal.s "pre"),
                      ("has_content", CodexScraper.LVal.b true),
                      ("_html", CodexScraper.LVal.s "<pre>out</pre>")],
        metadata := [("title", CodexScraper.MVal.s "T")],
        error := none }
      [("found_selector", CodexScraper.LVal.s "pre"),
       ("has_content", CodexScraper.LVal.b true),
       ("_html", CodexScraper.LVal.s "<pre>out</pre>")]
      "<pre>out</pre>" rfl rfl (by decide)
  exact ⟨h4, h7⟩

theorem litThenHex_iff (lit : List Char) :
    ∀ (s : List Char), GetUrls.litThenHexMatch lit s = true ↔
      ∃ (c : Char) (rest : List Char),
        s = lit ++ c :: rest ∧ GetUrls.isHexDigit c = true := by
  induction lit with
  | nil =>
    intro s
    cases s with
    | nil => simp [GetUrls.litThenHexMatch]
    | cons c cs =>
      simp only [GetUrls.litThenHexMatch, List.nil_append]
      constructor
      · intro hx
        exact ⟨c, cs, rfl, hx⟩
      · rintro ⟨c2, rest, heq, hx⟩
        obtain ⟨h1, h2⟩ := List.cons.injEq c cs c2 rest ▸ heq
        rw [h1]
        exact hx
  | cons l ls ih =>
    intro s
    cases s with
    | nil => simp [GetUrls.litThenHexMatch]
    | cons c cs =>
      by_cases hlc : l = c
      · subst hlc
        simp only [GetUrls.litThenHexMatch, beq_self_eq_true, Bool.true_and,
          List.cons_append, List.cons.injEq, true_and]
        exact ih cs
      · simp [GetUrls.litThenHexMatch, beq_iff_eq, hlc, List.cons_append,
          List.cons.injEq, Ne.symm hlc]

/-- C9 counterexample: the claim says the collection step keeps exactly the
strings conforming to the full pattern; a string with trailing non-hex
characters after a valid hex part is kept by the code (re.match anchors
only at the start) yet fails the full pattern. -/
theorem C9_counterexample :
    GetUrls.valid_urls ["https://chatgpt.com/codex/tasks/task_e_0abcZZZ"] =
      ["https://chatgpt.com/codex/tasks/task_e_0abcZZZ"] ∧
    List.filter SpecSide.specFullMatch
      ["https://chatgpt.com/codex/tasks/task_e_0abcZZZ"] = ([] : List String) ∧
    GetUrls.valid_urls ["https://chatgpt.com/codex/tasks/task_e_0abcZZZ"] ≠
      List.filter SpecSide.specFullMatch
        ["https://chatgpt.com/codex/tasks/task_e_0abcZZZ"] := by
  refine ⟨by decide, by decide, by decide⟩

/-- C9 (amended): the validation step keeps exactly those collected strings
that begin with the fixed prefix scheme://host/codex/tasks/task_e_
followed by at least one hexadecimal character; characters after that are
not inspected. -/
theorem C9_url_valid_start_anchored (urls : List String) (s : String) :
    s ∈ GetUrls.valid_urls urls ↔
      s ∈ urls ∧ ∃ (c : Char) (rest : List Char),
        s.data = GetUrls.taskUrlLit ++ c :: rest ∧
          GetUrls.isHexDigit c = true := by
  unfold GetUrls.valid_urls
  rw [List.mem_filter]
  exact and_congr Iff.rfl (litThenHex_iff GetUrls.taskUrlLit s.data)

theorem strBeqComm (a b : String) : (a == b) = (b == a) := by
  by_cases h : a = b
  · subst h; rfl
  · rw [beq_eq_false_iff_ne.mpr h, beq_eq_false_iff_ne.mpr (Ne.symm h)]

theorem memB_append_single (x c : String) (acc : List String) :
    PyStr.memB x (acc ++ [c]) = (PyStr.memB x acc || (c == x)) := by
  induction acc with
  | nil => simp [PyStr.memB]
  | cons y ys ih => simp [PyStr.memB, ih, Bool.or_assoc]

theorem filterBoth {α : Type} (p q : α → Bool) (l : List α) :
    (l.filter p).filter q = l.filter (fun x => p x && q x) := by
  induction l with
  | nil => rfl
  | cons a t ih =>
    by_cases hp : p a
    · by_cases hq : q a <;> simp [List.filter_cons, hp, hq, ih]
    · simp [List.filter_cons, hp, ih]

theorem fileFold (l : List String) : ∀ (acc : List String),
    l.foldl ScrapeUrlsV2.fileStep acc =
      acc ++ SpecSide.firstDedup
        (((l.filter ScrapeUrlsV2.filePass).map PyStr.pyStrip).filter
          (fun x => !(PyStr.memB x acc))) := by
  induction l with
  | nil => intro acc; simp [SpecSide.firstDedup]
  | cons t ls ih =>
    intro acc
    rw [List.foldl_cons]
    by_cases hp : ScrapeUrlsV2.filePass t = true
    · by_cases hm : PyStr.memB (PyStr.pyStrip t) acc = true
      · have hstep : ScrapeUrlsV2.fileStep acc t = acc := by
          simp [ScrapeUrlsV2.fileStep, hp, hm]
        rw [hstep, ih acc]
        congr 1
        simp [List.filter_cons, hp, List.map_cons, hm]
      · rw [Bool.not_eq_true] at hm
        have hstep : ScrapeUrlsV2.fileStep acc t = acc ++ [PyStr.pyStrip t] := by
          simp [ScrapeUrlsV2.fileStep, hp, hm]
        rw [hstep, ih (acc ++ [PyStr.pyStrip t])]
        have hfc : (((ls.filter ScrapeUrlsV2.filePass).map PyStr.pyStrip).filter
            (fun x => !(PyStr.memB x (acc ++ [PyStr.pyStrip t])))) =
            ((((ls.filter ScrapeUrlsV2.filePass).map PyStr.pyStrip).filter
              (fun x => !(PyStr.memB x acc))).filter
                (fun y => !(y == PyStr.pyStrip t))) := by
          rw [filterBoth]
          apply List.filter_congr
          intro a _
          rw [memB_append_single, Bool.not_or, strBeqComm (PyStr.pyStrip t) a]
        rw [hfc]
        simp [List.filter_cons, hp, List.map_cons, hm, SpecSide.firstDedup,
          List.append_assoc]
    · rw [Bool.not_eq_true] at hp
      have hstep : ScrapeUrlsV2.fileStep acc t = acc := by
        simp [ScrapeUrlsV2.fileStep, hp]
      rw [hstep, ih acc]
      congr 2
      simp [List.filter_cons, hp]

theorem firstDedup_sub : ∀ (fuel : Nat) (l : List String), l.length ≤ fuel →
    ∀ y ∈ SpecSide.firstDedup l, y ∈ l := by
  intro fuel
  induction fuel with
  | zero =>
    intro l hl
    have hnil : l = [] := List.length_eq_zero.mp (Nat.le_zero.mp hl)
    subst hnil
    intro y hy
    simp [SpecSide.firstDedup] at hy
  | succ n ih =>
    intro l hl y hy
    cases l with
    | nil => simp [SpecSide.firstDedup] at hy
    | cons x xs =>
      simp only [SpecSide.firstDedup] at hy
      rcases List.mem_cons.mp hy with h1 | h1
      · subst h1; exact List.mem_cons_self _ _
      · have hlen : (xs.filter (fun z => !(z == x))).length ≤ n := by
          have h2 : xs.length ≤ n := by
            simpa using Nat.succ_le_succ_iff.mp (by simpa using hl)
          exact le_trans (List.length_filter_le _ _) h2
        have h3 := ih _ hlen y h1
        exact List.mem_cons_of_mem _ (List.mem_of_mem_filter h3)

theorem firstDedup_nodup_aux : ∀ (fuel : Nat) (l : List String),
    l.length ≤ fuel → (SpecSide.firstDedup l).Nodup := by
  intro fuel
  induction fuel with
  | zero =>
    intro l hl
    have hnil : l = [] := List.length_eq_zero.mp (Nat.le_zero.mp hl)
    subst hnil
    simp [SpecSide.firstDedup]
  | succ n ih =>
    intro l hl
    cases l with
    | nil => simp [SpecSide.firstDedup]
    | cons x xs =>
      simp only [SpecSide.firstDedup]
      have hlen : (xs.filter (fun z => !(z == x))).length ≤ n := by
        have h2 : xs.length ≤ n := by
          simpa using Nat.succ_le_succ_iff.mp (by simpa using hl)
        exact le_trans (List.length_filter_le _ _) h2
      refine List.nodup_cons.mpr ⟨?_, ih _ hlen⟩
      intro hx
      have h3 := firstDedup_sub n _ hlen x hx
      rw [List.mem_filter] at h3
      simp at h3

/-- C7 counterexample: the claim says a candidate is accepted only when it
contains both a path separator and a file extension; the code accepts
setup.py, which has a dot but no separator. -/
theorem C7_counterexample :
    ScrapeUrlsV2.collectFiles ["setup.py"] = ["setup.py"] ∧
    (("setup.py" : String).data.contains '/') = false ∧
    (("setup.py" : String).data.contains '\\') = false := by
  refine ⟨by decide, by decide, by decide⟩

/-- C7 (amended): a files_changed candidate is accepted exactly when it is
non-empty, contains a dot and is shorter than 200 characters; accepted
candidates are stripped and appended in first-occurrence order with
duplicates removed. -/
theorem C7_files_first_occurrence_dedup (cands : List String) :
    ScrapeUrlsV2.collectFiles cands =
      SpecSide.firstDedup
        ((cands.filter ScrapeUrlsV2.filePass).map PyStr.pyStrip) ∧
    (ScrapeUrlsV2.collectFiles cands).Nodup ∧
    ∀ s ∈ ScrapeUrlsV2.collectFiles cands,
      ∃ t, t ∈ cands ∧ ScrapeUrlsV2.filePass t = true ∧ s = PyStr.pyStrip t := by
  have hmain : ScrapeUrlsV2.collectFiles cands =
      SpecSide.firstDedup
        ((cands.filter ScrapeUrlsV2.filePass).map PyStr.pyStrip) := by
    unfold ScrapeUrlsV2.collectFiles
    rw [fileFold cands []]
    simp [PyStr.memB]
  refine ⟨hmain, ?_, ?_⟩
  · rw [hmain]
    exact firstDedup_nodup_aux _ _ (le_refl _)
  · intro s hs
    rw [hmain] at hs
    have hsub := firstDedup_sub _ _ (le_refl _) s hs
    rw [List.mem_map] at hsub
    obtain ⟨t, ht, hst⟩ := hsub
    rw [List.mem_filter] at ht
    exact ⟨t, ht.1, ht.2, hst.symm⟩

theorem memOfGetLast {β : Type} : ∀ (l : List β) (a : β),
    l.getLast? = some a → a ∈ l := by
  intro l
  induction l with
  | nil => intro a h; simp at h
  | cons x xs ih =>
    intro a h
    cases xs with
    | nil =>
      simp [List.getLast?] at h
      subst h
      exact List.mem_cons_self _ _
    | cons y ys =>
      rw [List.getLast?_cons_cons] at h
      exact List.mem_cons_of_mem _ (ih a h)

theorem scrapeBatchesAux_nil {α : Type} (scrape : String → α) (n : Nat) :
    ∀ (fuel : Nat), ScrapeUrlsV1.scrapeBatchesAux scrape n fuel [] = [] := by
  intro fuel; cases fuel <;> rfl

theorem chunksAux_nil {α : Type} (n : Nat) :
    ∀ (fuel : Nat), ScrapeUrlsV1.chunksAux n fuel ([] : List α) = [] := by
  intro fuel; cases fuel <;> rfl

theorem filterMap_result {α β : Type} (f : β → α) (l : List β) :
    (l.map (fun v => ScrapeUrlsV1.BatchEv.result (f v))).filterMap
      ScrapeUrlsV1.recOf = l.map f := by
  induction l with
  | nil => rfl
  | cons a t ih => simp [List.filterMap_cons, ScrapeUrlsV1.recOf, ih]

theorem countP_result_zero {α β : Type} (f : β → α) (l : List β) :
    (l.map (fun v => ScrapeUrlsV1.BatchEv.result (f v))).countP
      ScrapeUrlsV1.isSleep = 0 := by
  induction l with
  | nil => rfl
  | cons a t ih => simp [List.countP_cons, ScrapeUrlsV1.isSleep, ih]

theorem chunksAux_len_pos {α : Type} (n : Nat) :
    ∀ (fuel : Nat) (l : List α), l ≠ [] → l.length ≤ fuel →
      1 ≤ (ScrapeUrlsV1.chunksAux n fuel l).length := by
  intro fuel l hne hl
  cases fuel with
  | zero =>
    cases l with
    | nil => exact absurd rfl hne
    | cons a t => simp at hl
  | succ m =>
    cases l with
    | nil => exact absurd rfl hne
    | cons a t => simp [ScrapeUrlsV1.chunksAux]

theorem batches_ne_nil {α : Type} (scrape : String → α) (n : Nat)
    (hn : 0 < n) : ∀ (fuel : Nat) (l : List String), l ≠ [] →
      l.length ≤ fuel → ScrapeUrlsV1.scrapeBatchesAux scrape n fuel l ≠ [] := by
  intro fuel l hne hl
  cases fuel with
  | zero =>
    cases l with
    | nil => exact absurd rfl hne
    | cons a t => simp at hl
  | succ m =>
    cases l with
    | nil => exact absurd rfl hne
    | cons u rest0 =>
      simp only [ScrapeUrlsV1.scrapeBatchesAux]
      intro hcontra
      obtain ⟨h1, _⟩ := List.append_eq_nil.mp hcontra
      obtain ⟨k, rfl⟩ : ∃ k, n = k + 1 := ⟨n - 1, by omega⟩
      rw [List.take_succ_cons] at h1
      simp at h1

theorem batches_filterMap {α : Type} (scrape : String → α) (n : Nat)
    (hn : 0 < n) : ∀ (fuel : Nat) (l : List String), l.length ≤ fuel →
      (ScrapeUrlsV1.scrapeBatchesAux scrape n fuel l).filterMap
          ScrapeUrlsV1.recOf = l.map scrape := by
  intro fuel
  induction fuel with
  | zero =>
    intro l hl
    have hnil : l = [] := List.length_eq_zero.mp (Nat.le_zero.mp hl)
    subst hnil
    rfl
  | succ m ih =>
    intro l hl
    cases l with
    | nil => rfl
    | cons u rest0 =>
      simp only [ScrapeUrlsV1.scrapeBatchesAux]
      rw [List.filterMap_append, filterMap_result]
      by_cases hrest : ((u :: rest0).drop n).isEmpty = true
      · have hnil : (u :: rest0).drop n = [] := List.isEmpty_iff.mp hrest
        have hlen : (u :: rest0).length ≤ n := List.drop_eq_nil_iff.mp hnil
        rw [if_pos hrest, List.take_of_length_le hlen]
        simp
      · rw [if_neg hrest]
        have hlen : ((u :: rest0).drop n).length ≤ m := by
          rw [List.length_drop]
          have h2 : (u :: rest0).length ≤ m + 1 := hl
          omega
        rw [List.filterMap_cons]
        show ((u :: rest0).take n).map scrape ++
            (ScrapeUrlsV1.scrapeBatchesAux scrape n m
              ((u :: rest0).drop n)).filterMap ScrapeUrlsV1.recOf =
          (u :: rest0).map scrape
        rw [ih _ hlen, ← List.map_append, List.take_append_drop]

theorem batches_sleep_count {α : Type} (scrape : String → α) (n : Nat)
    (hn : 0 < n) : ∀ (fuel : Nat) (l : List String), l.length ≤ fuel →
      (ScrapeUrlsV1.scrapeBatchesAux scrape n fuel l).countP
          ScrapeUrlsV1.isSleep =
        (ScrapeUrlsV1.chunksAux n fuel l).length - 1 := by
  intro fuel
  induction fuel with
  | zero =>
    intro l hl
    have hnil : l = [] := List.length_eq_zero.mp (Nat.le_zero.mp hl)
    subst hnil
    rfl
  | succ m ih =>
    intro l hl
    cases l with
    | nil => rfl
    | cons u rest0 =>
      simp only [ScrapeUrlsV1.scrapeBatchesAux, ScrapeUrlsV1.chunksAux]
      rw [List.countP_append, countP_result_zero]
      by_cases hrest : ((u :: rest0).drop n).isEmpty = true
      · have hnil : (u :: rest0).drop n = [] := List.isEmpty_iff.mp hrest
        rw [if_pos hrest, hnil, chunksAux_nil]
        rfl
      · rw [if_neg hrest]
        have hne : (u :: rest0).drop n ≠ [] := by
          intro hc
          rw [hc] at hrest
          exact hrest rfl
        have hlen : ((u :: rest0).drop n).length ≤ m := by
          rw [List.length_drop]
          have h2 : (u :: rest0).length ≤ m + 1 := hl
          omega
        rw [List.countP_cons, ih _ hlen]
        have hpos := chunksAux_len_pos n m _ hne hlen
        have hsleep : (if ScrapeUrlsV1.isSleep
            (ScrapeUrlsV1.BatchEv.sleepBatch : ScrapeUrlsV1.BatchEv α) = true
          then 1 else 0) = 1 := rfl
        rw [hsleep, List.length_cons]
        omega

theorem batches_last_not_sleep {α : Type} (scrape : String → α) (n : Nat)
    (hn : 0 < n) : ∀ (fuel : Nat) (l : List String), l.length ≤ fuel →
      ∀ ev, (ScrapeUrlsV1.scrapeBatchesAux scrape n fuel l).getLast? = some ev →
        ScrapeUrlsV1.isSleep ev = false := by
  intro fuel
  induction fuel with
  | zero =>
    intro l hl ev hev
    have hnil : l = [] := List.length_eq_zero.mp (Nat.le_zero.mp hl)
    subst hnil
    rw [scrapeBatchesAux_nil scrape n 0] at hev
    simp at hev
  | succ m ih =>
    intro l hl ev hev
    cases l with
    | nil =>
      rw [scrapeBatchesAux_nil scrape n (m + 1)] at hev
      simp at hev
    | cons u rest0 =>
      simp only [ScrapeUrlsV1.scrapeBatchesAux] at hev
      by_cases hrest : ((u :: rest0).drop n).isEmpty = true
      · rw [if_pos hrest, List.append_nil] at hev
        have hmem := memOfGetLast _ _ hev
        rw [List.mem_map] at hmem
        obtain ⟨v, _, hv⟩ := hmem
        rw [← hv]
        rfl
      · rw [if_neg hrest] at hev
        have hne : (u :: rest0).drop n ≠ [] := by
          intro hc
          rw [hc] at hrest
          exact hrest rfl
        have hlen : ((u :: rest0).drop n).length ≤ m := by
          rw [List.length_drop]
          have h2 : (u :: rest0).length ≤ m + 1 := hl
          omega
        have hauxne := batches_ne_nil scrape n hn m _ hne hlen
        cases haux : ScrapeUrlsV1.scrapeBatchesAux scrape n m ((u :: rest0).drop n) with
        | nil => exact absurd haux hauxne
        | cons a t =>
          rw [haux, List.getLast?_append_cons, List.getLast?_cons_cons] at hev
          refine ih _ hlen ev ?_
          rw [haux]
          exact hev

theorem chunks_join_aux {α : Type} (n : Nat) (hn : 0 < n) :
    ∀ (fuel : Nat) (l : List α), l.length ≤ fuel →
      (ScrapeUrlsV1.chunksAux n fuel l).flatten = l := by
  intro fuel
  induction fuel with
  | zero =>
    intro l hl
    have hnil : l = [] := List.length_eq_zero.mp (Nat.le_zero.mp hl)
    subst hnil
    rfl
  | succ m ih =>
    intro l hl
    cases l with
    | nil => rfl
    | cons u rest0 =>
      simp only [ScrapeUrlsV1.chunksAux, List.flatten_cons]
      have hlen : ((u :: rest0).drop n).length ≤ m := by
        rw [List.length_drop]
        have h2 : (u :: rest0).length ≤ m + 1 := hl
        omega
      rw [ih _ hlen, List.take_append_drop]

/-- C4: the batched orchestrator scrape_all_tasks partitions the Target
list into consecutive batches of size n (the last possibly smaller, their
concatenation being the whole list), produces exactly one Record per
Target in list order (the Task Executor never raises, so a failed Target
contributes its error Record without cancelling the batch), and sleeps the
inter-batch delay once between consecutive batches and never after the
final batch. -/
theorem C4_batched_orchestration {α : Type} (scrape : String → α) (n : Nat)
    (urls : List String) (hn : 0 < n) :
    (ScrapeUrlsV1.scrape_all_tasks scrape n urls).filterMap
        ScrapeUrlsV1.recOf = urls.map scrape ∧
    (ScrapeUrlsV1.scrape_all_tasks scrape n urls).countP
        ScrapeUrlsV1.isSleep = (ScrapeUrlsV1.chunks n urls).length - 1 ∧
    (∀ ev, (ScrapeUrlsV1.scrape_all_tasks scrape n urls).getLast? = some ev →
      ScrapeUrlsV1.isSleep ev = false) ∧
    (ScrapeUrlsV1.chunks n urls).flatten = urls := by
  refine ⟨batches_filterMap scrape n hn urls.length urls (le_refl _),
    batches_sleep_count scrape n hn urls.length urls (le_refl _),
    fun ev hev => batches_last_not_sleep scrape n hn urls.length urls
      (le_refl _) ev hev,
    chunks_join_aux n hn urls.length urls (le_refl _)⟩

/-- C4 witness: three Targets under a concurrency limit of two give two
batches, one inter-batch sleep and one result per Target in order. -/
theorem C4_witness :
    (ScrapeUrlsV1.scrape_all_tasks String.length 2 ["a", "bb", "ccc"]).filterMap
        ScrapeUrlsV1.recOf = ["a", "bb", "ccc"].map String.length ∧
    (ScrapeUrlsV1.scrape_all_tasks String.length 2 ["a", "bb", "ccc"]).countP
        ScrapeUrlsV1.isSleep =
      (ScrapeUrlsV1.chunks 2 ["a", "bb", "ccc"]).length - 1 ∧
    (ScrapeUrlsV1.chunks 2 ["a", "bb", "ccc"]).flatten = ["a", "bb", "ccc"] := by
  obtain ⟨h1, h2, h3, h4⟩ :=
    C4_batched_orchestration String.length 2 ["a", "bb", "ccc"] (by decide)
  exact ⟨h1, h2, h4⟩

end Theorems
